import Mathlib

/-!
Verification of `threadporter` (`src/thread_bound.rs`): a guard type
`ThreadBound<T>` that records the identity of the thread that created it and
checks, on every gated operation, that the calling thread is that owner.

Shallow embedding conventions:
* `ThreadId` (Rust `std::thread::ThreadId`) is modelled as `Nat`; the ambient
  "current thread" (`thread::current().id()` in Rust) is passed explicitly as
  a `caller : ThreadId` argument to every operation that consults it.
* A Rust panic is modelled as the `.error` branch of `Except Panic`; the
  `Panic` record carries exactly the data interpolated into the panic message
  of `ThreadBound::check` (payload type name, calling thread, owner thread).
* `type_name::<T>()` is modelled as an explicit `tn : String` argument.
* Trait-object behaviour of the payload (Debug/Display rendering, equality,
  ordering, hashing, future/stream/sink stepping, `needs_drop`) is passed in
  as explicit function or flag arguments, since the Rust code is generic in
  `T` and merely delegates to the payload's implementations.
-/

set_option autoImplicit false

namespace Threadporter

/-- Thread identity token, modelling `std::thread::ThreadId`: an opaque,
comparable, copyable identity. -/
abbrev ThreadId := Nat

/-- The data carried by the panic raised in `ThreadBound::check`
(src/thread_bound.rs lines 75-80): the payload type name, the calling
thread's id and the owning thread's id. -/
structure Panic where
  typeName : String
  callingThread : ThreadId
  ownerThread : ThreadId
deriving DecidableEq, Repr

/-- The panic message format string of `ThreadBound::check`. -/
def Panic.message (p : Panic) : String :=
  "cannot use " ++ p.typeName ++ " on thread ThreadId(" ++
    toString p.callingThread ++ ") since it belongs to thread ThreadId(" ++
    toString p.ownerThread ++ ")"

/-- Embeds `ThreadBound<T>` (src/thread_bound.rs lines 34-38): the wrapped value,
the id of the thread that created the guard, and the `taken` flag set by
`into_inner`.  `ManuallyDrop<T>` only affects drop timing, so the field is
modelled as a plain `T` and drop is modelled explicitly by `dropGuard`. -/
structure ThreadBound (T : Type) where
  value : T
  thread_id : ThreadId
  taken : Bool
deriving DecidableEq, Repr

namespace ThreadBound

variable {T U : Type}

/-- Embeds `ThreadBound::new` (lines 45-47): binds the value to the current thread. -/
def new (caller : ThreadId) (value : T) : ThreadBound T :=
  { thread_id := caller, value := value, taken := false }

/-- Embeds `ThreadBound::thread_id` accessor (lines 50-52): returns the recorded
owner thread id, with no ownership check. -/
def thread_id_fn (this : ThreadBound T) : ThreadId :=
  this.thread_id

/-- Embeds `ThreadBound::is_usable` (lines 67-69): whether the value is usable from
the current thread. -/
def is_usable (caller : ThreadId) (this : ThreadBound T) : Bool :=
  caller == this.thread_id

/-- Embeds `ThreadBound::check` (lines 73-82): panics unless the calling thread is
the owner thread. -/
def check (tn : String) (caller : ThreadId) (this : ThreadBound T) :
    Except Panic Unit :=
  if is_usable caller this then Except.ok ()
  else Except.error ⟨tn, caller, this.thread_id⟩

/-- Embeds `ThreadBound::into_inner` (lines 59-63): checks, marks the guard taken
and moves the value out.  The residual guard (which Rust then drops at the
end of `into_inner`) is returned alongside the value so that its subsequent
destruction can be reasoned about. -/
def into_inner (tn : String) (caller : ThreadId) (this : ThreadBound T) :
    Except Panic (T × ThreadBound T) :=
  match check tn caller this with
  | Except.error e => Except.error e
  | Except.ok _ =>
      let this2 := { this with taken := true }
      Except.ok (this2.value, this2)

/-- Embeds `Deref::deref` (lines 88-91): check, then read access to the value. -/
def deref (tn : String) (caller : ThreadId) (this : ThreadBound T) :
    Except Panic T := do
  check tn caller this
  pure this.value

/-- Embeds `DerefMut::deref_mut` (lines 96-99): check, then mutable access; the
use made of the returned mutable reference is modelled as an update
function applied to the value. -/
def deref_mut (tn : String) (caller : ThreadId) (f : T → T)
    (this : ThreadBound T) : Except Panic (ThreadBound T) := do
  check tn caller this
  pure { this with value := f this.value }

/-- One rendered field of a `debug_struct` builder: field name and the
field's rendered debug text. -/
abbrev DebugField := String × String

/-- The output of `Formatter::debug_struct(..).field(..)...finish()`:
the struct name and the rendered fields, in order. -/
structure DebugOutput where
  structName : String
  fields : List DebugField
deriving DecidableEq, Repr

/-- Rust's `Debug` rendering of a `ThreadId`. -/
def threadIdDebug (t : ThreadId) : String :=
  "ThreadId(" ++ toString t ++ ")"

/-- Embeds `fmt::Debug for ThreadBound` (lines 107-114): builds a debug struct
named "ThreadBound", always adds the `thread_id` field, and adds the
`value` field only when the guard is usable from the calling thread.
Never fails: the result is a plain `DebugOutput`, not an `Except`. -/
def debugFmt (dbg : T → String) (caller : ThreadId) (this : ThreadBound T) :
    DebugOutput :=
  { structName := "ThreadBound"
    fields :=
      ("thread_id", threadIdDebug this.thread_id) ::
        (if is_usable caller this then [("value", dbg this.value)] else []) }

/-- Embeds `fmt::Display for ThreadBound` (lines 122-125): check, then delegate to
the payload's display rendering. -/
def displayFmt (disp : T → String) (tn : String) (caller : ThreadId)
    (this : ThreadBound T) : Except Panic String := do
  check tn caller this
  pure (disp this.value)

/-- Embeds `Clone for ThreadBound` (lines 143-146): check, then build a new guard
with the same `thread_id`, a clone of the value (cloning a pure value is
the identity) and the same `taken` flag, copied verbatim. -/
def clone (tn : String) (caller : ThreadId) (this : ThreadBound T) :
    Except Panic (ThreadBound T) := do
  check tn caller this
  pure { thread_id := this.thread_id, value := this.value, taken := this.taken }

/-- Embeds `PartialEq for ThreadBound` (lines 170-174): check both guards, then
delegate to the payload's equality `beq`. -/
def eqGuard (beq : T → T → Bool) (tn : String) (caller : ThreadId)
    (a b : ThreadBound T) : Except Panic Bool := do
  check tn caller a
  check tn caller b
  pure (beq a.value b.value)

/-- Embeds `PartialEq<T> for ThreadBound<T>` (lines 182-185): check the guard only,
then delegate to the payload's equality against the bare peer. -/
def eqBare (beq : T → T → Bool) (tn : String) (caller : ThreadId)
    (a : ThreadBound T) (other : T) : Except Panic Bool := do
  check tn caller a
  pure (beq a.value other)

/-- Embeds `PartialOrd for ThreadBound` (lines 195-199): check both guards, then
delegate to the payload's `partial_cmp`. -/
def cmpPartialGuard (pcmp : T → T → Option Ordering) (tn : String)
    (caller : ThreadId) (a b : ThreadBound T) :
    Except Panic (Option Ordering) := do
  check tn caller a
  check tn caller b
  pure (pcmp a.value b.value)

/-- Embeds `PartialOrd<T> for ThreadBound<T>` (lines 207-210): check the guard
only, then delegate to the payload's `partial_cmp` against the bare peer. -/
def cmpPartialBare (pcmp : T → T → Option Ordering) (tn : String)
    (caller : ThreadId) (a : ThreadBound T) (other : T) :
    Except Panic (Option Ordering) := do
  check tn caller a
  pure (pcmp a.value other)

/-- Embeds `Ord for ThreadBound` (lines 218-222): check both guards, then delegate
to the payload's total ordering. -/
def cmpGuard (c : T → T → Ordering) (tn : String) (caller : ThreadId)
    (a b : ThreadBound T) : Except Panic Ordering := do
  check tn caller a
  check tn caller b
  pure (c a.value b.value)

/-- Embeds `Hash for ThreadBound` (lines 230-236): check, then feed the payload to
the hasher; the hasher is modelled as a state `st : H` transformed by the
payload's hash function. -/
def hashGuard {H : Type} (hashFn : T → H → H) (tn : String)
    (caller : ThreadId) (a : ThreadBound T) (st : H) : Except Panic H := do
  check tn caller a
  pure (hashFn a.value st)

/-- Embeds `Drop for ThreadBound` (lines 241-246): if the payload needs drop and
was not taken, check first and only then run the payload's teardown.
The `Bool` result records whether the payload's teardown ran. -/
def dropGuard (needsDrop : Bool) (tn : String) (caller : ThreadId)
    (this : ThreadBound T) : Except Panic Bool :=
  if needsDrop && !this.taken then
    match check tn caller this with
    | Except.error e => Except.error e
    | Except.ok _ => Except.ok true
  else
    Except.ok false

/-- Rust's `Poll` from `std::task`. -/
inductive Poll (A : Type) where
  | ready (a : A)
  | pending
deriving DecidableEq, Repr

/-- Embeds `Future for ThreadBound` (lines 256-260): check, then forward one poll
step to the payload; `pollFn` is the payload future's own `poll`, taking
and returning the payload state. -/
def poll {Out : Type} (pollFn : T → T × Poll Out) (tn : String)
    (caller : ThreadId) (this : ThreadBound T) :
    Except Panic (ThreadBound T × Poll Out) := do
  check tn caller this
  let s := pollFn this.value
  pure ({ this with value := s.1 }, s.2)

/-- Embeds `Stream for ThreadBound`, `poll_next` (lines 305-309): check, then
forward one poll-for-next-item step to the payload stream. -/
def poll_next {Item : Type} (stepFn : T → T × Poll (Option Item))
    (tn : String) (caller : ThreadId) (this : ThreadBound T) :
    Except Panic (ThreadBound T × Poll (Option Item)) := do
  check tn caller this
  let s := stepFn this.value
  pure ({ this with value := s.1 }, s.2)

/-- Embeds `Sink for ThreadBound`, `poll_ready` (lines 270-274): check, then
forward the readiness poll to the payload sink. -/
def poll_ready {E : Type} (stepFn : T → T × Poll (Except E Unit))
    (tn : String) (caller : ThreadId) (this : ThreadBound T) :
    Except Panic (ThreadBound T × Poll (Except E Unit)) := do
  check tn caller this
  let s := stepFn this.value
  pure ({ this with value := s.1 }, s.2)

/-- Embeds `Sink for ThreadBound`, `start_send` (lines 277-281): check, then
submit the item to the payload sink. -/
def start_send {S E : Type} (stepFn : T → S → T × Except E Unit)
    (tn : String) (caller : ThreadId) (item : S) (this : ThreadBound T) :
    Except Panic (ThreadBound T × Except E Unit) := do
  check tn caller this
  let s := stepFn this.value item
  pure ({ this with value := s.1 }, s.2)

/-- Embeds `Sink for ThreadBound`, `poll_flush` (lines 284-288): check, then
forward the flush poll to the payload sink. -/
def poll_flush {E : Type} (stepFn : T → T × Poll (Except E Unit))
    (tn : String) (caller : ThreadId) (this : ThreadBound T) :
    Except Panic (ThreadBound T × Poll (Except E Unit)) := do
  check tn caller this
  let s := stepFn this.value
  pure ({ this with value := s.1 }, s.2)

/-- Embeds `Sink for ThreadBound`, `poll_close` (lines 291-295): check, then
forward the close poll to the payload sink. -/
def poll_close {E : Type} (stepFn : T → T × Poll (Except E Unit))
    (tn : String) (caller : ThreadId) (this : ThreadBound T) :
    Except Panic (ThreadBound T × Poll (Except E Unit)) := do
  check tn caller this
  let s := stepFn this.value
  pure ({ this with value := s.1 }, s.2)

/-- Guards reachable through the public API: built by `new` (also by
`Default::default`, which is literally `new` applied to the default value)
or produced by a successful `clone` of a reachable guard.  `into_inner`
consumes its guard, so the `taken := true` residual it creates is never
reachable. -/
inductive Reachable : ThreadBound T → Prop where
  | of_new (caller : ThreadId) (v : T) : Reachable (new caller v)
  | of_clone (tn : String) (caller : ThreadId) (src out : ThreadBound T) :
      Reachable src → clone tn caller src = Except.ok out → Reachable out

end ThreadBound

/-- Free function `thread_bound` (lines 18-20): binds the value to the
current thread via `ThreadBound::new`. -/
def thread_bound {T : Type} (caller : ThreadId) (value : T) :
    ThreadBound T :=
  ThreadBound.new caller value

namespace ThreadBound

variable {T : Type}

theorem check_ok {caller : ThreadId} {this : ThreadBound T} (tn : String)
    (h : caller = this.thread_id) : check tn caller this = Except.ok () := by
  simp [check, is_usable, h]

theorem check_error {caller : ThreadId} {this : ThreadBound T} (tn : String)
    (h : caller ≠ this.thread_id) :
    check tn caller this = Except.error ⟨tn, caller, this.thread_id⟩ := by
  simp [check, is_usable, h]

theorem clone_ok_inv {tn : String} {caller : ThreadId}
    {src out : ThreadBound T} (h : clone tn caller src = Except.ok out) :
    out = { thread_id := src.thread_id, value := src.value,
            taken := src.taken } := by
  by_cases hc : caller = src.thread_id
  · unfold clone at h
    rw [check_ok tn hc] at h
    exact (Except.ok.injEq _ _ ▸ h).symm
  · unfold clone at h
    rw [check_error tn hc] at h
    exact absurd h (by simp)

theorem taken_false_of_reachable {tb : ThreadBound T}
    (h : Reachable tb) : tb.taken = false := by
  induction h with
  | of_new caller v => rfl
  | of_clone tn caller src out _ hclone ih =>
      rw [clone_ok_inv hclone]
      exact ih

end ThreadBound

open ThreadBound

/-- C1: every gated operation — dereference read, dereference write,
extraction, display formatting, equality (Guard and bare peer), partial and
total ordering (Guard and bare peer), hashing, cloning, and each forwarded
future/stream/sink step — invoked from a caller other than the recorded
owner thread fails with the same panic, carrying the payload type name, the
calling thread's id and the owning thread's id. -/
theorem wrongThreadPanicsAllGatedOps
    {T H Out Item S E : Type} (tn : String) (caller : ThreadId)
    (tb b : ThreadBound T) (x : T) (f : T → T) (disp : T → String)
    (beq : T → T → Bool) (pcmp : T → T → Option Ordering)
    (c : T → T → Ordering) (hashFn : T → H → H) (st : H)
    (pollFn : T → T × Poll Out) (stepN : T → T × Poll (Option Item))
    (stepR : T → T × Poll (Except E Unit))
    (stepS : T → S → T × Except E Unit) (item : S)
    (stepF : T → T × Poll (Except E Unit))
    (stepC : T → T × Poll (Except E Unit))
    (h : caller ≠ tb.thread_id) :
    deref tn caller tb = Except.error ⟨tn, caller, tb.thread_id⟩ ∧
    deref_mut tn caller f tb = Except.error ⟨tn, caller, tb.thread_id⟩ ∧
    into_inner tn caller tb = Except.error ⟨tn, caller, tb.thread_id⟩ ∧
    displayFmt disp tn caller tb
      = Except.error ⟨tn, caller, tb.thread_id⟩ ∧
    eqGuard beq tn caller tb b
      = Except.error ⟨tn, caller, tb.thread_id⟩ ∧
    eqBare beq tn caller tb x
      = Except.error ⟨tn, caller, tb.thread_id⟩ ∧
    cmpPartialGuard pcmp tn caller tb b
      = Except.error ⟨tn, caller, tb.thread_id⟩ ∧
    cmpPartialBare pcmp tn caller tb x
      = Except.error ⟨tn, caller, tb.thread_id⟩ ∧
    cmpGuard c tn caller tb b
      = Except.error ⟨tn, caller, tb.thread_id⟩ ∧
    hashGuard hashFn tn caller tb st
      = Except.error ⟨tn, caller, tb.thread_id⟩ ∧
    ThreadBound.clone tn caller tb
      = Except.error ⟨tn, caller, tb.thread_id⟩ ∧
    ThreadBound.poll pollFn tn caller tb
      = Except.error ⟨tn, caller, tb.thread_id⟩ ∧
    poll_next stepN tn caller tb
      = Except.error ⟨tn, caller, tb.thread_id⟩ ∧
    poll_ready stepR tn caller tb
      = Except.error ⟨tn, caller, tb.thread_id⟩ ∧
    start_send stepS tn caller item tb
      = Except.error ⟨tn, caller, tb.thread_id⟩ ∧
    poll_flush stepF tn caller tb
      = Except.error ⟨tn, caller, tb.thread_id⟩ ∧
    poll_close stepC tn caller tb
      = Except.error ⟨tn, caller, tb.thread_id⟩ := by
  refine ⟨?_, ?_, ?_, ?_, ?_, ?_, ?_, ?_, ?_, ?_, ?_, ?_, ?_, ?_, ?_, ?_, ?_⟩
  · unfold deref; rw [check_error tn h]; rfl
  · unfold deref_mut; rw [check_error tn h]; rfl
  · unfold into_inner; rw [check_error tn h]
  · unfold displayFmt; rw [check_error tn h]; rfl
  · unfold eqGuard; rw [check_error tn h]; rfl
  · unfold eqBare; rw [check_error tn h]; rfl
  · unfold cmpPartialGuard; rw [check_error tn h]; rfl
  · unfold cmpPartialBare; rw [check_error tn h]; rfl
  · unfold cmpGuard; rw [check_error tn h]; rfl
  · unfold hashGuard; rw [check_error tn h]; rfl
  · unfold ThreadBound.clone; rw [check_error tn h]; rfl
  · unfold ThreadBound.poll; rw [check_error tn h]; rfl
  · unfold poll_next; rw [check_error tn h]; rfl
  · unfold poll_ready; rw [check_error tn h]; rfl
  · unfold start_send; rw [check_error tn h]; rfl
  · unfold poll_flush; rw [check_error tn h]; rfl
  · unfold poll_close; rw [check_error tn h]; rfl

/-- C1 witness: a guard owned by thread 0 and dereferenced from thread 1
panics with the diagnostic naming the type, the caller and the owner. -/
theorem wrongThreadPanicsAllGatedOps_witness :
    (1 : ThreadId) ≠ (ThreadBound.new 0 (42 : Nat)).thread_id ∧
    deref "i32" 1 (ThreadBound.new 0 (42 : Nat))
      = Except.error ⟨"i32", 1, 0⟩ :=
  ⟨by decide,
   (@wrongThreadPanicsAllGatedOps Nat Nat Nat Nat Nat Nat
      "i32" 1 (ThreadBound.new 0 42)
      (ThreadBound.new 0 42) 42 id (fun n => toString n)
      (fun a b => a == b) (fun a b => some (compare a b)) compare
      (fun a s => a + s) 0 (fun n => (n, Poll.pending))
      (fun n => (n, Poll.pending)) (fun n => (n, Poll.pending))
      (fun n _ => (n, Except.ok ())) 0 (fun n => (n, Poll.pending))
      (fun n => (n, Poll.pending)) (by decide)).1⟩

/-- C2: constructing a guard around `v` and extracting it, both on the
owning thread, returns `v`; the residual guard carries `taken := true`, so
its subsequent destruction never runs the payload's teardown again — from
any thread, whether or not the payload type needs drop. -/
theorem extractRoundTrip {T : Type} (tn : String) (o : ThreadId) (v : T) :
    into_inner tn o (ThreadBound.new o v)
      = Except.ok (v, { value := v, thread_id := o, taken := true }) ∧
    ∀ (needsDrop : Bool) (tn2 : String) (c : ThreadId),
      dropGuard needsDrop tn2 c
          ({ value := v, thread_id := o, taken := true } : ThreadBound T)
        = Except.ok false := by
  constructor
  · have hc : check tn o
        ({ value := v, thread_id := o, taken := false } : ThreadBound T)
        = Except.ok () := check_ok tn rfl
    unfold into_inner ThreadBound.new
    rw [hc]
  · intro needsDrop tn2 c
    simp [dropGuard]

/-- C3: debug formatting never fails (it is a total function into
`DebugOutput`): it always renders the recorded owner-thread identity as the
first field, and it renders a `value` field exactly when the calling thread
is the owner. -/
theorem debugFmtTotal {T : Type} (dbg : T → String) (caller : ThreadId)
    (tb : ThreadBound T) :
    (debugFmt dbg caller tb).structName = "ThreadBound" ∧
    (debugFmt dbg caller tb).fields.head?
      = some ("thread_id", threadIdDebug tb.thread_id) ∧
    ((∃ s, ("value", s) ∈ (debugFmt dbg caller tb).fields) ↔
      caller = tb.thread_id) := by
  by_cases h : caller = tb.thread_id <;>
    simp [debugFmt, is_usable, h]

/-- C4: dropping a never-extracted guard enforces the gate first when the
payload type needs drop — panic off-owner with teardown not run, teardown
runs on the owner — and performs no check at all (never panics, from any
thread) when the payload type has trivial teardown. -/
theorem dropSemantics {T : Type} (tn : String) (caller : ThreadId)
    (tb : ThreadBound T) (h : tb.taken = false) :
    (caller ≠ tb.thread_id →
      dropGuard true tn caller tb
        = Except.error ⟨tn, caller, tb.thread_id⟩) ∧
    (caller = tb.thread_id →
      dropGuard true tn caller tb = Except.ok true) ∧
    (∀ c : ThreadId, dropGuard false tn c tb = Except.ok false) := by
  refine ⟨?_, ?_, ?_⟩
  · intro hc
    unfold dropGuard
    rw [h, check_error tn hc]
    rfl
  · intro hc
    unfold dropGuard
    rw [h, check_ok tn hc]
    rfl
  · intro c
    simp [dropGuard]

/-- C4 witness: dropping a droppable-payload guard owned by thread 0 from
thread 1 panics with the diagnostic naming type, caller and owner. -/
theorem dropSemantics_witness :
    (ThreadBound.new 0 (5 : Nat)).taken = false ∧
    dropGuard true "i32" 1 (ThreadBound.new 0 (5 : Nat))
      = Except.error ⟨"i32", 1, 0⟩ :=
  ⟨rfl, (dropSemantics "i32" 1 (ThreadBound.new 0 5) rfl).1 (by decide)⟩

/-- C5: cloning gates on the source (panic off the source's owner thread),
and on success yields a guard with the source's recorded owner thread, the
source's payload, and — since every API-reachable source has
`taken = false`, which clone copies verbatim — a fresh, non-extracted
`taken = false` flag. -/
theorem cloneSemantics {T : Type} (tn : String) (caller : ThreadId)
    (tb : ThreadBound T) (hr : Reachable tb) :
    (caller ≠ tb.thread_id →
      ThreadBound.clone tn caller tb
        = Except.error ⟨tn, caller, tb.thread_id⟩) ∧
    (caller = tb.thread_id →
      ThreadBound.clone tn caller tb
        = Except.ok { value := tb.value, thread_id := tb.thread_id,
                      taken := false }) := by
  constructor
  · intro hc
    unfold ThreadBound.clone
    rw [check_error tn hc]
    rfl
  · intro hc
    unfold ThreadBound.clone
    rw [check_ok tn hc, taken_false_of_reachable hr]
    rfl

/-- C5 witness: cloning a freshly constructed guard on its owner thread
yields a guard with the same owner, equal payload and `taken = false`. -/
theorem cloneSemantics_witness :
    Reachable (ThreadBound.new 0 (5 : Nat)) ∧
    ThreadBound.clone "i32" 0 (ThreadBound.new 0 (5 : Nat))
      = Except.ok { value := 5, thread_id := 0, taken := false } :=
  ⟨Reachable.of_new 0 5,
   (cloneSemantics "i32" 0 (ThreadBound.new 0 5)
      (Reachable.of_new 0 5)).2 rfl⟩

/-- C6: `is_usable` returns true exactly when the caller is the recorded
owner thread and returns false (without panicking — it is a total `Bool`
function) otherwise; the owner-thread accessor returns the recorded owner
identity from any thread with no ownership check; both are pure functions
of the guard, so they change no state. -/
theorem probeSemantics {T : Type} (caller : ThreadId)
    (tb : ThreadBound T) :
    (is_usable caller tb = true ↔ caller = tb.thread_id) ∧
    thread_id_fn tb = tb.thread_id ∧
    (caller ≠ tb.thread_id → is_usable caller tb = false) := by
  refine ⟨?_, rfl, ?_⟩
  · simp [is_usable]
  · intro h
    simp [is_usable, h]

/-- C6 witness: the usability probe applied to a concrete guard. -/
theorem probeSemantics_witness :
    is_usable 1 (ThreadBound.new 0 (7 : Nat)) = false :=
  (probeSemantics 1 (ThreadBound.new 0 7)).2.2 (by decide)

/-- C7: equality, ordering and hashing delegate to the payload after
gating: with a Guard-typed peer both operands are gated (the receiver
off-owner panics naming the receiver's owner, the receiver on-owner but the
peer off-owner panics naming the peer's owner, both on-owner delegates);
with a bare payload-typed peer only the receiving guard is gated, and
hashing gates only the receiver. -/
theorem binaryOpsGateBoth {T H : Type} (beq : T → T → Bool)
    (pcmp : T → T → Option Ordering) (c : T → T → Ordering)
    (hashFn : T → H → H) (tn : String) (caller : ThreadId)
    (a b : ThreadBound T) (x : T) (st : H) :
    (caller ≠ a.thread_id →
      eqGuard beq tn caller a b
        = Except.error ⟨tn, caller, a.thread_id⟩ ∧
      cmpPartialGuard pcmp tn caller a b
        = Except.error ⟨tn, caller, a.thread_id⟩ ∧
      cmpGuard c tn caller a b
        = Except.error ⟨tn, caller, a.thread_id⟩ ∧
      eqBare beq tn caller a x
        = Except.error ⟨tn, caller, a.thread_id⟩ ∧
      cmpPartialBare pcmp tn caller a x
        = Except.error ⟨tn, caller, a.thread_id⟩ ∧
      hashGuard hashFn tn caller a st
        = Except.error ⟨tn, caller, a.thread_id⟩) ∧
    (caller = a.thread_id → caller ≠ b.thread_id →
      eqGuard beq tn caller a b
        = Except.error ⟨tn, caller, b.thread_id⟩ ∧
      cmpPartialGuard pcmp tn caller a b
        = Except.error ⟨tn, caller, b.thread_id⟩ ∧
      cmpGuard c tn caller a b
        = Except.error ⟨tn, caller, b.thread_id⟩) ∧
    (caller = a.thread_id → caller = b.thread_id →
      eqGuard beq tn caller a b = Except.ok (beq a.value b.value) ∧
      cmpPartialGuard pcmp tn caller a b
        = Except.ok (pcmp a.value b.value) ∧
      cmpGuard c tn caller a b = Except.ok (c a.value b.value)) ∧
    (caller = a.thread_id →
      eqBare beq tn caller a x = Except.ok (beq a.value x) ∧
      cmpPartialBare pcmp tn caller a x
        = Except.ok (pcmp a.value x) ∧
      hashGuard hashFn tn caller a st
        = Except.ok (hashFn a.value st)) := by
  refine ⟨?_, ?_, ?_, ?_⟩
  · intro ha
    refine ⟨?_, ?_, ?_, ?_, ?_, ?_⟩ <;>
      first
        | (unfold eqGuard; rw [check_error tn ha]; rfl)
        | (unfold cmpPartialGuard; rw [check_error tn ha]; rfl)
        | (unfold cmpGuard; rw [check_error tn ha]; rfl)
        | (unfold eqBare; rw [check_error tn ha]; rfl)
        | (unfold cmpPartialBare; rw [check_error tn ha]; rfl)
        | (unfold hashGuard; rw [check_error tn ha]; rfl)
  · intro ha hb
    refine ⟨?_, ?_, ?_⟩ <;>
      first
        | (unfold eqGuard; rw [check_ok tn ha, check_error tn hb]; rfl)
        | (unfold cmpPartialGuard; rw [check_ok tn ha, check_error tn hb];
           rfl)
        | (unfold cmpGuard; rw [check_ok tn ha, check_error tn hb]; rfl)
  · intro ha hb
    refine ⟨?_, ?_, ?_⟩ <;>
      first
        | (unfold eqGuard; rw [check_ok tn ha, check_ok tn hb]; rfl)
        | (unfold cmpPartialGuard; rw [check_ok tn ha, check_ok tn hb];
           rfl)
        | (unfold cmpGuard; rw [check_ok tn ha, check_ok tn hb]; rfl)
  · intro ha
    refine ⟨?_, ?_, ?_⟩ <;>
      first
        | (unfold eqBare; rw [check_ok tn ha]; rfl)
        | (unfold cmpPartialBare; rw [check_ok tn ha]; rfl)
        | (unfold hashGuard; rw [check_ok tn ha]; rfl)

/-- C7 witness: comparing a usable receiver against a guard owned by a
different thread panics naming the peer's owner. -/
theorem binaryOpsGateBoth_witness :
    eqGuard (fun a b : Nat => a == b) "i32" 0 (ThreadBound.new 0 2)
        (ThreadBound.new 1 3)
      = Except.error ⟨"i32", 0, 1⟩ :=
  ((binaryOpsGateBoth (fun a b : Nat => a == b)
      (fun a b => some (compare a b)) compare
      (fun a s : Nat => a + s) "i32" 0 (ThreadBound.new 0 2)
      (ThreadBound.new 1 3) 5 0).2.1 rfl (by decide)).1

/-- C8: construction has no failure mode: `thread_bound v` on thread `o`
stores `v`, records `o` as owner, sets `taken := false`, and the new guard
reports owner `o` and is usable from `o`. -/
theorem constructNoFailure {T : Type} (o : ThreadId) (v : T) :
    thread_bound o v = { value := v, thread_id := o, taken := false } ∧
    (thread_bound o v).thread_id = o ∧
    (thread_bound o v).taken = false ∧
    is_usable o (thread_bound o v) = true := by
  refine ⟨rfl, rfl, rfl, ?_⟩
  simp [thread_bound, ThreadBound.new, is_usable]

/-- C9: every guard reachable through the public API — built by `new` or by
a successful `clone` of a reachable guard — has `taken = false`; in
particular clone, which copies the flag verbatim, can only ever copy
false. -/
theorem reachableNeverTaken {T : Type} (tb : ThreadBound T)
    (h : Reachable tb) : tb.taken = false :=
  taken_false_of_reachable h

/-- C9 witness: a freshly constructed guard is reachable and not taken. -/
theorem reachableNeverTaken_witness :
    Reachable (ThreadBound.new 0 (3 : Nat)) ∧
    (ThreadBound.new 0 (3 : Nat)).taken = false :=
  ⟨Reachable.of_new 0 3,
   reachableNeverTaken (ThreadBound.new 0 3) (Reachable.of_new 0 3)⟩

/-- C10: from a non-owner thread, debug formatting depends only on the
recorded owner-thread identity: two guards with the same owner but
arbitrary payloads — of possibly different types — and arbitrary flags
produce identical debug output. -/
theorem debugNoninterference {T U : Type} (dbgT : T → String)
    (dbgU : U → String) (caller tid : ThreadId) (v : T) (w : U)
    (tk1 tk2 : Bool) (h : caller ≠ tid) :
    debugFmt dbgT caller { value := v, thread_id := tid, taken := tk1 }
      = debugFmt dbgU caller
          { value := w, thread_id := tid, taken := tk2 } := by
  simp [debugFmt, is_usable, h]

/-- C10 witness: from thread 1, a guard holding `5 : Nat` and a guard
holding `"x"`, both owned by thread 0, debug-format identically. -/
theorem debugNoninterference_witness :
    (1 : ThreadId) ≠ (0 : ThreadId) ∧
    debugFmt (fun n : Nat => toString n) 1
        { value := 5, thread_id := 0, taken := false }
      = debugFmt (fun s : String => s) 1
          { value := "x", thread_id := 0, taken := false } :=
  ⟨by decide,
   debugNoninterference (fun n : Nat => toString n) (fun s : String => s)
     1 0 5 "x" false false (by decide)⟩
